import Mathlib

/-!
Verification of the Gerrit author-merger pipeline: a shallow embedding of
the fetcher module (JSON field extraction, descriptor construction,
response decoding, patch-list assembly, the sequential apply loop) and of
the standalone diagnostic utility, together with theorems about the
claims of the specification.
-/

namespace GerritMerger

/-! ## JSON model -/

/-- A JSON value: a string, an integer, or an object (association list of
string keys to values).  These are the only shapes the fetcher inspects. -/
inductive J : Type where
  | str : String → J
  | num : Int → J
  | obj : List (String × J) → J

/-- Association-list lookup over the fields of a JSON object,
first match wins. -/
def jAssoc : List (String × J) → String → Option J
  | [], _ => none
  | (k, v) :: rest, key => if k = key then some v else jAssoc rest key

/-- Dictionary access `response[field]`: some value when `response`
is an object containing the key, none otherwise. -/
def jGet : J → String → Option J
  | J.obj fields, key => jAssoc fields key
  | J.str _, _ => none
  | J.num _, _ => none

/-- Rendering of a JSON leaf as Python `str` renders the values the code
passes to string concatenation. -/
def pyStr : J → String
  | J.str s => s
  | J.num n => toString n
  | J.obj _ => ""

/-! ## CherryPickInfo (fetcher.py lines 28-142) -/

/-- The `__fetch_field` helper: return the field or fail with the
KeyError message built by the source. -/
def fetchField (response : J) (field_name : String) : Except String J :=
  match jGet response field_name with
  | some v => Except.ok v
  | none => Except.error ("no field " ++ field_name ++ " in JSON response")

/-- Field access where the key itself is a previously fetched JSON value
(the daisy-chained `__fetch_field(cur_rev_id, all_revs)` call). -/
def fetchKey (key : J) (container : J) : Except String J :=
  match key with
  | J.str s => fetchField container s
  | _ => Except.error "no field in JSON response"

/-- The data held by a constructed `CherryPickInfo` object. -/
structure CherryPickInfo where
  json_response : J
  created_time : J
  updated_time : J
  number : J

/-- `CherryPickInfo.__init__`: fetch `created`, `updated` and `_number`
from the change JSON; a KeyError from any fetch aborts construction. -/
def CherryPickInfo.init (json_response : J) : Except String CherryPickInfo :=
  match fetchField json_response "created" with
  | Except.error e => Except.error e
  | Except.ok c =>
    match fetchField json_response "updated" with
    | Except.error e => Except.error e
    | Except.ok u =>
      match fetchField json_response "_number" with
      | Except.error e => Except.error e
      | Except.ok n => Except.ok ⟨json_response, c, u, n⟩

/-- `fetch_cherry_pick_string`: navigate
`revisions[current_revision].fetch.http.commands["Cherry Pick"]`. -/
def fetch_cherry_pick_string (info : CherryPickInfo) : Except String J :=
  match fetchField info.json_response "current_revision" with
  | Except.error e => Except.error e
  | Except.ok cur_rev_id =>
    match fetchField info.json_response "revisions" with
    | Except.error e => Except.error e
    | Except.ok all_revs =>
      match fetchKey cur_rev_id all_revs with
      | Except.error e => Except.error e
      | Except.ok cur_rev =>
        match fetchField cur_rev "fetch" with
        | Except.error e => Except.error e
        | Except.ok f =>
          match fetchField f "http" with
          | Except.error e => Except.error e
          | Except.ok h =>
            match fetchField h "commands" with
            | Except.error e => Except.error e
            | Except.ok commands => fetchField commands "Cherry Pick"

/-- The hard-coded header of every fail URL. -/
def FAIL_URL_HEADER : String := "https://android-review.googlesource.com/#/c/"

/-- `fetch_fail_url`: the review page URL built from the change number. -/
def fetch_fail_url (info : CherryPickInfo) : String :=
  FAIL_URL_HEADER ++ pyStr info.number ++ "/"

/-- One patch descriptor as produced by the fetcher: the cherry-pick
command string paired with the fail display URL. -/
abbrev Patch := String × String

/-- The body of the `get_author_cherry_picks` loop for one decoded change
object: construct the info object, then fetch the command and the URL. -/
def buildDescriptor (data : J) : Except String Patch :=
  match CherryPickInfo.init data with
  | Except.error e => Except.error e
  | Except.ok info =>
    match fetch_cherry_pick_string info with
    | Except.error e => Except.error e
    | Except.ok cp => Except.ok (pyStr cp, fetch_fail_url info)

/-- `get_author_cherry_picks` applied to the decoded response array:
build a descriptor per element in order; any failure propagates and the
whole batch yields no list. -/
def get_author_cherry_picks : List J → Except String (List Patch)
  | [] => Except.ok []
  | data :: rest =>
    match buildDescriptor data with
    | Except.error e => Except.error e
    | Except.ok desc =>
      match get_author_cherry_picks rest with
      | Except.error e => Except.error e
      | Except.ok tail => Except.ok (desc :: tail)

/-! ## Spec-side resolvability of a change object -/

/-- Resolution of the apply command along the path the spec names:
`revisions[current_revision].fetch.http.commands["Cherry Pick"]`. -/
def resolveCherryPick (d : J) : Option J :=
  match jGet d "current_revision" with
  | none => none
  | some cur_rev_id =>
    match jGet d "revisions" with
    | none => none
    | some all_revs =>
      match cur_rev_id with
      | J.str s =>
        match jGet all_revs s with
        | none => none
        | some cur_rev =>
          match jGet cur_rev "fetch" with
          | none => none
          | some f =>
            match jGet f "http" with
            | none => none
            | some h =>
              match jGet h "commands" with
              | none => none
              | some commands => jGet commands "Cherry Pick"
      | _ => none

/-- A change object from which all descriptor fields are resolvable:
`created`, `updated`, `_number`, and the apply-command path. -/
def resolvableChange (d : J) : Prop :=
  (jGet d "created").isSome = true ∧ (jGet d "updated").isSome = true ∧
  (jGet d "_number").isSome = true ∧ (resolveCherryPick d).isSome = true

instance (d : J) : Decidable (resolvableChange d) := by
  unfold resolvableChange
  infer_instance

/-! ## Response decoding (fetcher.py lines 169-190) -/

/-- The Gerrit magic token that may precede the JSON body:
a close parenthesis, close bracket, close brace, apostrophe, newline. -/
def GERRIT_MAGIC : String :=
  String.mk [Char.ofNat 41, Char.ofNat 93, Char.ofNat 125, Char.ofNat 39, Char.ofNat 10]

/-- An HTTP response as the decoder sees it: status code, request URL,
body text. -/
structure HttpResponse where
  status : Nat
  url : String
  text : String

/-- The log lines printed when `raise_for_status` raises (client or
server error status) and the exception is caught. -/
def raiseForStatusLog (r : HttpResponse) : List String :=
  if 400 ≤ r.status ∧ r.status < 600 then
    ["ERROR on response to " ++ r.url, "server returns: " ++ r.text]
  else []

/-- List version of Python `startswith`. -/
def listStartsWith : List Char → List Char → Bool
  | _, [] => true
  | [], _ :: _ => false
  | a :: as, b :: bs => if a = b then listStartsWith as bs else false

/-- Python `content.startswith(tok)`: character-wise comparison. -/
def pyStartsWith (s tok : String) : Bool := listStartsWith s.data tok.data

/-- Python `len`: the number of characters. -/
def pyLen (s : String) : Nat := s.data.length

/-- Python slicing `s[n:]`: drop the first `n` characters. -/
def pyDrop (s : String) (n : Nat) : String := String.mk (s.data.drop n)

/-- `decode_response`: log any HTTP error status, strip the magic token
when the body starts with it, and decode the remainder with `loads`. -/
def decode_response {α : Type} (loads : String → Option α) (response : HttpResponse) :
    List String × Option α :=
  let log := raiseForStatusLog response
  let content := response.text
  let content :=
    if pyStartsWith content GERRIT_MAGIC then pyDrop content (pyLen GERRIT_MAGIC)
    else content
  (log, loads content)

/-! ## Patch-list assembly (fetcher.py lines 241-256) -/

/-- Python string comparison, code point by code point. -/
def charListLe : List Char → List Char → Bool
  | [], _ => true
  | _ :: _, [] => false
  | a :: as, b :: bs => if a < b then true else if b < a then false else charListLe as bs

/-- Less-or-equal on the URL sort key. -/
def urlLe (a b : String) : Bool := charListLe a.data b.data

/-- Stable insertion into a list sorted ascending by the second
component (the fail URL), as `list.sort(key=lambda number:number[1])`
orders elements. -/
def insertByUrl (p : Patch) : List Patch → List Patch
  | [] => [p]
  | q :: rest => if urlLe p.2 q.2 then p :: q :: rest else q :: insertByUrl p rest

/-- Stable sort by the fail URL, the model of Python `list.sort` with
the URL key. -/
def pySortByUrl : List Patch → List Patch
  | [] => []
  | p :: rest => insertByUrl p (pySortByUrl rest)

/-- The aggregation loop of `form_patch_list`: query each author in
roster order; append a non-empty result, skip an empty one; a query
failure propagates. -/
def gatherAuthors (query : String → Except String (List Patch)) :
    List String → Except String (List Patch)
  | [] => Except.ok []
  | author :: rest =>
    match query author with
    | Except.error e => Except.error e
    | Except.ok author_result =>
      match gatherAuthors query rest with
      | Except.error e => Except.error e
      | Except.ok tail =>
        Except.ok (if author_result.isEmpty then tail else author_result ++ tail)

/-- `form_patch_list`: gather all author results, then sort the combined
list by the URL key.  The `sort` argument is accepted but, as in the
source, never consulted. -/
def form_patch_list (query : String → Except String (List Patch))
    (authors : List String) (sort : Bool) : Except String (List Patch) :=
  match gatherAuthors query authors with
  | Except.error e => Except.error e
  | Except.ok patch_list => Except.ok (pySortByUrl patch_list)

/-! ## Shell world: working directory and command execution -/

/-- The observable process state: current working directory and the
ordered trace of shell commands issued so far. -/
structure World where
  cwd : String
  trace : List String

/-- The environment decides what each command invocation does: `status`
gives the exit status of the n-th invocation of a command (or a raised
exception from the spawning layer), `chdirOk` tells whether changing
into a path succeeds. -/
structure Env where
  status : Nat → String → Except String Nat
  chdirOk : String → Bool

/-- `os.chdir`: move to the path or raise. -/
def osChdir (env : Env) (w : World) (p : String) : Except String Unit × World :=
  if env.chdirOk p then (Except.ok (), { w with cwd := p })
  else (Except.error ("chdir " ++ p), w)

/-- `subprocess.call`: record the command in the trace and yield its exit
status (or propagate a raised exception). -/
def callBash (env : Env) (w : World) (cmd : String) : Except String Nat × World :=
  (env.status w.trace.length cmd, { w with trace := w.trace ++ [cmd] })

/-- `call_bash_muted`: true when the exit status is zero. -/
def call_bash_muted (env : Env) (w : World) (cmd : String) : Except String Bool × World :=
  match callBash env w cmd with
  | (Except.ok bash_ret, w1) => (Except.ok (bash_ret == 0), w1)
  | (Except.error e, w1) => (Except.error e, w1)

/-- Constants of fetcher.py. -/
def PATH : String := "/home/paki/work/mipsia_master/art"

/-- The checkout command for the integration branch. -/
def GIT_CHECKOUT_AUTOMERGE_BRANCH : String := "git checkout script_automerger"

/-- The compensating abort command. -/
def GIT_ABORT_CHERRY_PICK : String := "git cherry-pick --abort"

/-- The hard reset to the upstream tracking reference. -/
def GIT_FULL_RESET_AOSP : String := "git reset --hard aosp/master"

/-- `try_cherry_pick` (fetcher.py): run the apply command; on failure run
the abort command, discarding its status; return the apply status. -/
def try_cherry_pick (env : Env) (w : World) (command : String) :
    Except String Bool × World :=
  match call_bash_muted env w command with
  | (Except.error e, w1) => (Except.error e, w1)
  | (Except.ok res, w1) =>
    if res then (Except.ok res, w1)
    else
      match call_bash_muted env w1 GIT_ABORT_CHERRY_PICK with
      | (Except.error e, w2) => (Except.error e, w2)
      | (Except.ok _, w2) => (Except.ok res, w2)

/-- The per-patch loop of `try_regular_list`: classify each patch by the
outcome of its apply command, in list order. -/
def apply_loop (env : Env) : World → List Patch →
    Except String (List Patch × List Patch) × World
  | w, [] => (Except.ok ([], []), w)
  | w, patch :: rest =>
    match try_cherry_pick env w patch.1 with
    | (Except.error e, w1) => (Except.error e, w1)
    | (Except.ok true, w1) =>
      match apply_loop env w1 rest with
      | (Except.error e, w2) => (Except.error e, w2)
      | (Except.ok (reg, unm), w2) => (Except.ok (patch :: reg, unm), w2)
    | (Except.ok false, w1) =>
      match apply_loop env w1 rest with
      | (Except.error e, w2) => (Except.error e, w2)
      | (Except.ok (reg, unm), w2) => (Except.ok (reg, patch :: unm), w2)

/-- The protected body of `try_regular_list`: change into the repository,
check out the integration branch, hard-reset it, then run the loop.  The
results of the checkout and reset commands are discarded, as in the
source. -/
def try_regular_list_body (env : Env) (w : World) (patch_list : List Patch) :
    Except String (List Patch × List Patch) × World :=
  match osChdir env w PATH with
  | (Except.error e, w1) => (Except.error e, w1)
  | (Except.ok _, w1) =>
    match call_bash_muted env w1 GIT_CHECKOUT_AUTOMERGE_BRANCH with
    | (Except.error e, w2) => (Except.error e, w2)
    | (Except.ok _, w2) =>
      match call_bash_muted env w2 GIT_FULL_RESET_AOSP with
      | (Except.error e, w3) => (Except.error e, w3)
      | (Except.ok _, w3) => apply_loop env w3 patch_list

/-- Python try/finally whose finally clause is `os.chdir(old_path)`:
whatever result (value or raised exception) the already-evaluated body
produced, the restoring chdir runs, and an exception it raises replaces
the pending result. -/
def finallyChdir {α : Type} (env : Env) (old_path : String)
    (body : Except String α × World) : Except String α × World :=
  match body with
  | (r, wb) =>
    match osChdir env wb old_path with
    | (Except.ok _, wf) => (r, wf)
    | (Except.error e, wf) => (Except.error e, wf)

/-- `try_regular_list`: remember the current directory, run the body, and
in a finally clause change back to the remembered directory. -/
def try_regular_list (env : Env) (w : World) (patch_list : List Patch) :
    Except String (List Patch × List Patch) × World :=
  let old_path := w.cwd
  finallyChdir env old_path (try_regular_list_body env w patch_list)

/-- An environment whose commands never raise and whose apply outcome is
a fixed function of the command string; every chdir succeeds. -/
def envOf (f : String → Bool) : Env :=
  { status := fun _ cmd => Except.ok (if f cmd then 0 else 1),
    chdirOk := fun _ => true }

/-! ## commit.py, the standalone diagnostic utility -/

namespace Commit

/-- The repository path of commit.py. -/
def COMMIT_PATH : String := "/home/paki/work/mipsia_master/art"

/-- The hard-coded example apply command. -/
def EXAMPLE : String :=
  "git fetch https://android.googlesource.com/platform/art refs/changes/65/171665/3 && git cherry-pick FETCH_HEAD"

/-- The abort command of commit.py. -/
def ABORT_COMMAND : String := "git cherry-pick --abort"

/-- `try_cherry_pick` (commit.py): run the command; on non-zero status
run the abort command and return false, else return true. -/
def try_cherry_pick (env : Env) (w : World) (command : String) :
    Except String Bool × World :=
  match callBash env w command with
  | (Except.error e, w1) => (Except.error e, w1)
  | (Except.ok result, w1) =>
    if result != 0 then
      match callBash env w1 ABORT_COMMAND with
      | (Except.error e, w2) => (Except.error e, w2)
      | (Except.ok _, w2) => (Except.ok false, w2)
    else (Except.ok true, w1)

/-- `work`: one diagnostic attempt of the example command. -/
def work (env : Env) (w : World) : Except String Bool × World :=
  try_cherry_pick env w EXAMPLE

/-- The protected body of `main` (commit.py): change into the repository
and run the diagnostic. -/
def mainBody (env : Env) (w : World) : Except String Bool × World :=
  match osChdir env w COMMIT_PATH with
  | (Except.error e, w1) => (Except.error e, w1)
  | (Except.ok _, w1) => work env w1

/-- `main` (commit.py): remember the current directory, change into the
repository, run the diagnostic, and restore the directory in a finally
clause. -/
def main (env : Env) (w : World) : Except String Bool × World :=
  let old_path := w.cwd
  finallyChdir env old_path (mainBody env w)

end Commit

/-! ## Concrete inputs used by witnesses and counterexamples -/

/-- A change object with every field present but a negative number. -/
def negChange : J :=
  J.obj [("created", J.str "2015-05-05 10:00:00"), ("updated", J.str "2015-05-06 10:00:00"),
         ("_number", J.num (-1)), ("current_revision", J.str "rev1"),
         ("revisions", J.obj [("rev1", J.obj [("fetch", J.obj [("http",
           J.obj [("commands", J.obj [("Cherry Pick", J.str "git fetch X && git cherry-pick FETCH_HEAD")])])])])])]

/-- A fully well-formed change object. -/
def goodChangeA : J :=
  J.obj [("created", J.str "2016-01-01"), ("updated", J.str "2016-01-02"),
         ("_number", J.num 42), ("current_revision", J.str "ra"),
         ("revisions", J.obj [("ra", J.obj [("fetch", J.obj [("http",
           J.obj [("commands", J.obj [("Cherry Pick", J.str "git fetch A && git cherry-pick FETCH_HEAD")])])])])])]

/-- A second fully well-formed change object, with number 7. -/
def goodChangeB : J :=
  J.obj [("created", J.str "2016-03-03"), ("updated", J.str "2016-03-04"),
         ("_number", J.num 7), ("current_revision", J.str "rb"),
         ("revisions", J.obj [("rb", J.obj [("fetch", J.obj [("http",
           J.obj [("commands", J.obj [("Cherry Pick", J.str "applyB")])])])])])]

/-- A change object missing most required fields. -/
def badChange : J := J.obj [("created", J.str "2016-02-02")]

/-- The change object of the worked example, with number 171665. -/
def change171665 : J :=
  J.obj [("created", J.str "2015-11-10 10:00:00"), ("updated", J.str "2015-11-12 10:00:00"),
         ("_number", J.num 171665), ("current_revision", J.str "r65"),
         ("revisions", J.obj [("r65", J.obj [("fetch", J.obj [("http",
           J.obj [("commands", J.obj [("Cherry Pick",
             J.str "git fetch https://android.googlesource.com/platform/art refs/changes/65/171665/3 && git cherry-pick FETCH_HEAD")])])])])])]

/-- A patch whose fail URL carries number 9. -/
def patch9 : Patch := ("apply9", "https://android-review.googlesource.com/#/c/9/")

/-- A patch whose fail URL carries number 10; its URL sorts before the
URL of number 9 in the lexicographic string order. -/
def patch10 : Patch := ("apply10", "https://android-review.googlesource.com/#/c/10/")

end GerritMerger

namespace GerritMerger

/-! ## Helper lemmas: the apply loop under a per-command outcome oracle -/

/-- Under an outcome oracle, one attempt yields the outcome of the apply
command; a failed attempt also records the abort command. -/
theorem try_cherry_pick_envOf (f : String → Bool) (w : World) (c : String) :
    try_cherry_pick (envOf f) w c =
      if f c then (Except.ok true, { w with trace := w.trace ++ [c] })
      else (Except.ok false, { w with trace := w.trace ++ [c, GIT_ABORT_CHERRY_PICK] }) := by
  by_cases h : f c = true <;>
    simp [try_cherry_pick, call_bash_muted, callBash, envOf, h]

/-- The loop partitions the patch list into the two filter
subsequences. -/
theorem apply_loop_envOf_fst (f : String → Bool) (pl : List Patch) :
    ∀ (w : World),
      (apply_loop (envOf f) w pl).1 =
        Except.ok (pl.filter (fun p => f p.1), pl.filter (fun p => !(f p.1))) := by
  induction pl with
  | nil => intro w; rfl
  | cons p rest ih =>
    intro w
    by_cases h : f p.1 = true
    · rcases hres : apply_loop (envOf f) { w with trace := w.trace ++ [p.1] } rest with ⟨r2, w2⟩
      have hr := ih { w with trace := w.trace ++ [p.1] }
      rw [hres] at hr
      simp at hr
      subst hr
      simp [apply_loop, try_cherry_pick_envOf, h, hres, List.filter]
    · rcases hres : apply_loop (envOf f)
          { w with trace := w.trace ++ [p.1, GIT_ABORT_CHERRY_PICK] } rest with ⟨r2, w2⟩
      have hr := ih { w with trace := w.trace ++ [p.1, GIT_ABORT_CHERRY_PICK] }
      rw [hres] at hr
      simp at hr
      subst hr
      simp [apply_loop, try_cherry_pick_envOf, h, hres, List.filter]

/-- The loop only ever appends to the command trace. -/
theorem apply_loop_envOf_trace_mono (f : String → Bool) (pl : List Patch) :
    ∀ (w : World) (x : String), x ∈ w.trace → x ∈ (apply_loop (envOf f) w pl).2.trace := by
  induction pl with
  | nil => intro w x hx; exact hx
  | cons p rest ih =>
    intro w x hx
    by_cases h : f p.1 = true
    · rcases hres : apply_loop (envOf f) { w with trace := w.trace ++ [p.1] } rest with ⟨r2, w2⟩
      have := ih { w with trace := w.trace ++ [p.1] } x (by simp [hx])
      rw [hres] at this
      cases r2 with
      | error e => simp_all [apply_loop, try_cherry_pick_envOf, h, hres]
      | ok v => rcases v with ⟨reg, unm⟩; simp_all [apply_loop, try_cherry_pick_envOf, h, hres]
    · rcases hres : apply_loop (envOf f)
          { w with trace := w.trace ++ [p.1, GIT_ABORT_CHERRY_PICK] } rest with ⟨r2, w2⟩
      have := ih { w with trace := w.trace ++ [p.1, GIT_ABORT_CHERRY_PICK] } x (by simp [hx])
      rw [hres] at this
      cases r2 with
      | error e => simp_all [apply_loop, try_cherry_pick_envOf, h, hres]
      | ok v => rcases v with ⟨reg, unm⟩; simp_all [apply_loop, try_cherry_pick_envOf, h, hres]

/-- Every patch of the list has its apply command attempted: the command
appears in the trace left by the loop. -/
theorem apply_loop_envOf_attempted (f : String → Bool) (pl : List Patch) :
    ∀ (w : World) (p : Patch), p ∈ pl → p.1 ∈ (apply_loop (envOf f) w pl).2.trace := by
  induction pl with
  | nil => intro w p hp; cases hp
  | cons q rest ih =>
    intro w p hp
    rcases List.mem_cons.mp hp with heq | hmem
    · subst heq
      by_cases h : f p.1 = true
      · rcases hres : apply_loop (envOf f) { w with trace := w.trace ++ [p.1] } rest with ⟨r2, w2⟩
        have := apply_loop_envOf_trace_mono f rest { w with trace := w.trace ++ [p.1] } p.1 (by simp)
        rw [hres] at this
        cases r2 with
        | error e => simp_all [apply_loop, try_cherry_pick_envOf, h, hres]
        | ok v => rcases v with ⟨reg, unm⟩; simp_all [apply_loop, try_cherry_pick_envOf, h, hres]
      · rcases hres : apply_loop (envOf f)
            { w with trace := w.trace ++ [p.1, GIT_ABORT_CHERRY_PICK] } rest with ⟨r2, w2⟩
        have := apply_loop_envOf_trace_mono f rest
            { w with trace := w.trace ++ [p.1, GIT_ABORT_CHERRY_PICK] } p.1 (by simp)
        rw [hres] at this
        cases r2 with
        | error e => simp_all [apply_loop, try_cherry_pick_envOf, h, hres]
        | ok v => rcases v with ⟨reg, unm⟩; simp_all [apply_loop, try_cherry_pick_envOf, h, hres]
    · by_cases h : f q.1 = true
      · rcases hres : apply_loop (envOf f) { w with trace := w.trace ++ [q.1] } rest with ⟨r2, w2⟩
        have := ih { w with trace := w.trace ++ [q.1] } p hmem
        rw [hres] at this
        cases r2 with
        | error e => simp_all [apply_loop, try_cherry_pick_envOf, h, hres]
        | ok v => rcases v with ⟨reg, unm⟩; simp_all [apply_loop, try_cherry_pick_envOf, h, hres]
      · rcases hres : apply_loop (envOf f)
            { w with trace := w.trace ++ [q.1, GIT_ABORT_CHERRY_PICK] } rest with ⟨r2, w2⟩
        have := ih { w with trace := w.trace ++ [q.1, GIT_ABORT_CHERRY_PICK] } p hmem
        rw [hres] at this
        cases r2 with
        | error e => simp_all [apply_loop, try_cherry_pick_envOf, h, hres]
        | ok v => rcases v with ⟨reg, unm⟩; simp_all [apply_loop, try_cherry_pick_envOf, h, hres]

/-! ## Helper lemmas: the finally clause -/

/-- When the restoring chdir succeeds, the pending result passes
through. -/
theorem finallyChdir_fst {α : Type} (env : Env) (old : String)
    (b : Except String α × World) (h : env.chdirOk old = true) :
    (finallyChdir env old b).1 = b.1 := by
  rcases b with ⟨r, wb⟩
  simp [finallyChdir, osChdir, h]

/-- When the restoring chdir succeeds, the final working directory is the
remembered one, whatever the body did. -/
theorem finallyChdir_cwd {α : Type} (env : Env) (old : String)
    (b : Except String α × World) (h : env.chdirOk old = true) :
    (finallyChdir env old b).2.cwd = old := by
  rcases b with ⟨r, wb⟩
  simp [finallyChdir, osChdir, h]

/-- The finally clause never changes the command trace. -/
theorem finallyChdir_trace {α : Type} (env : Env) (old : String)
    (b : Except String α × World) :
    (finallyChdir env old b).2.trace = b.2.trace := by
  rcases b with ⟨r, wb⟩
  by_cases h : env.chdirOk old = true <;> simp [finallyChdir, osChdir, h]

/-- When the restoring chdir fails, the call surfaces an error. -/
theorem finallyChdir_err {α : Type} (env : Env) (old : String)
    (b : Except String α × World) (h : env.chdirOk old = false) :
    ∃ e, (finallyChdir env old b).1 = Except.error e := by
  rcases b with ⟨r, wb⟩
  simp [finallyChdir, osChdir, h]

/-- Under an outcome oracle the prepare phase always succeeds, leaving
the checkout and reset commands in the trace. -/
theorem try_regular_list_body_envOf (f : String → Bool) (w : World) (pl : List Patch) :
    try_regular_list_body (envOf f) w pl =
      apply_loop (envOf f)
        { cwd := PATH, trace := w.trace ++ [GIT_CHECKOUT_AUTOMERGE_BRANCH, GIT_FULL_RESET_AOSP] } pl := by
  simp [try_regular_list_body, osChdir, call_bash_muted, callBash, envOf]

end GerritMerger

namespace GerritMerger

/-! ## Helper lemmas: one attempt under explicit exit statuses -/

/-- When both the apply and the abort invocation return exit statuses,
one attempt reduces to an explicit classification by the apply status. -/
theorem try_cherry_pick_status_ok (env : Env) (w : World) (command : String) (s s2 : Nat)
    (h1 : env.status w.trace.length command = Except.ok s)
    (h2 : env.status (w.trace.length + 1) GIT_ABORT_CHERRY_PICK = Except.ok s2) :
    try_cherry_pick env w command =
      if s == 0 then (Except.ok true, { w with trace := w.trace ++ [command] })
      else (Except.ok false, { w with trace := w.trace ++ [command, GIT_ABORT_CHERRY_PICK] }) := by
  by_cases h : s == 0
  · simp [try_cherry_pick, call_bash_muted, callBash, h1, h]
  · simp only [try_cherry_pick, call_bash_muted, callBash, h1, h]
    simp [h, h2]

/-- The commit.py attempt under explicit exit statuses. -/
theorem commit_try_cherry_pick_status_ok (env : Env) (w : World) (command : String) (s s2 : Nat)
    (h1 : env.status w.trace.length command = Except.ok s)
    (h2 : env.status (w.trace.length + 1) Commit.ABORT_COMMAND = Except.ok s2) :
    Commit.try_cherry_pick env w command =
      if s == 0 then (Except.ok true, { w with trace := w.trace ++ [command] })
      else (Except.ok false, { w with trace := w.trace ++ [command, Commit.ABORT_COMMAND] }) := by
  by_cases h : s == 0
  · have hz : s = 0 := by simpa using h
    simp [Commit.try_cherry_pick, callBash, h1, hz]
  · have hz : ¬ s = 0 := by simpa using h
    simp [Commit.try_cherry_pick, callBash, h1, hz, h2, h]

/-- When every invocation returns a status, one attempt always returns a
classification. -/
theorem try_cherry_pick_total (env : Env)
    (hok : ∀ n c, ∃ s, env.status n c = Except.ok s) (w : World) (cmd : String) :
    ∃ b w2, try_cherry_pick env w cmd = (Except.ok b, w2) := by
  obtain ⟨s, hs⟩ := hok w.trace.length cmd
  obtain ⟨s2, hs2⟩ := hok (w.trace.length + 1) GIT_ABORT_CHERRY_PICK
  rw [try_cherry_pick_status_ok env w cmd s s2 hs hs2]
  by_cases h : s == 0 <;> simp [h]

/-- When every invocation returns a status, the loop classifies every
patch of the list. -/
theorem apply_loop_total (env : Env)
    (hok : ∀ n c, ∃ s, env.status n c = Except.ok s) (pl : List Patch) :
    ∀ (w : World), ∃ reg unm, (apply_loop env w pl).1 = Except.ok (reg, unm)
      ∧ reg.length + unm.length = pl.length := by
  induction pl with
  | nil => intro w; exact ⟨[], [], rfl, rfl⟩
  | cons p rest ih =>
    intro w
    obtain ⟨b, w1, hb⟩ := try_cherry_pick_total env hok w p.1
    obtain ⟨reg, unm, hres, hlen⟩ := ih w1
    rcases hres2 : apply_loop env w1 rest with ⟨r2, w2⟩
    rw [hres2] at hres
    simp at hres
    subst hres
    cases b
    · refine ⟨reg, p :: unm, ?_, ?_⟩
      · simp [apply_loop, hb, hres2]
      · simp; omega
    · refine ⟨p :: reg, unm, ?_, ?_⟩
      · simp [apply_loop, hb, hres2]
      · simp; omega

/-! ## Helper lemmas: descriptor construction -/

/-- An Except value with some `toOption` is the corresponding ok. -/
theorem toOption_eq_some {α : Type} (e : Except String α) (v : α) :
    e.toOption = some v ↔ e = Except.ok v := by
  cases e <;> simp [Except.toOption]

/-- An Except value with none `toOption` is an error. -/
theorem toOption_eq_none {α : Type} (e : Except String α) :
    e.toOption = none ↔ ∃ s, e = Except.error s := by
  cases e <;> simp [Except.toOption]

/-- The code navigation of the apply-command path agrees with the
spec-side resolution. -/
theorem cps_toOption (d c u nv : J) :
    (fetch_cherry_pick_string ⟨d, c, u, nv⟩).toOption = resolveCherryPick d := by
  unfold fetch_cherry_pick_string resolveCherryPick fetchKey fetchField
  cases h1 : jGet d "current_revision" <;> simp only [h1, Except.toOption]
  case some cid =>
  cases h2 : jGet d "revisions" <;> simp only [h2, Except.toOption]
  case some revs =>
  cases cid <;> simp only [Except.toOption]
  case str s =>
  cases h3 : jGet revs s <;> simp only [h3, Except.toOption]
  case some cur =>
  cases h4 : jGet cur "fetch" <;> simp only [h4, Except.toOption]
  case some fet =>
  cases h5 : jGet fet "http" <;> simp only [h5, Except.toOption]
  case some htp =>
  cases h6 : jGet htp "commands" <;> simp only [h6, Except.toOption]
  case some commandsv =>
  cases h7 : jGet commandsv "Cherry Pick" <;> simp only [h7, Except.toOption]

/-- A resolvable apply command is fetched exactly. -/
theorem cps_ok (d c u nv v : J) (h : resolveCherryPick d = some v) :
    fetch_cherry_pick_string ⟨d, c, u, nv⟩ = Except.ok v := by
  rw [← toOption_eq_some, cps_toOption]
  exact h

/-- An unresolvable apply command fails the fetch. -/
theorem cps_err (d c u nv : J) (h : resolveCherryPick d = none) :
    ∃ s, fetch_cherry_pick_string ⟨d, c, u, nv⟩ = Except.error s := by
  rw [← toOption_eq_none, cps_toOption]
  exact h

/-- Construction of the info object from resolvable basic fields. -/
theorem init_ok (d c u nv : J) (h1 : jGet d "created" = some c)
    (h2 : jGet d "updated" = some u) (h3 : jGet d "_number" = some nv) :
    CherryPickInfo.init d = Except.ok ⟨d, c, u, nv⟩ := by
  simp [CherryPickInfo.init, fetchField, h1, h2, h3]

/-- The descriptor built from a fully resolvable change object. -/
theorem buildDescriptor_ok (d c u nv cp : J)
    (h1 : jGet d "created" = some c) (h2 : jGet d "updated" = some u)
    (h3 : jGet d "_number" = some nv) (hcp : resolveCherryPick d = some cp) :
    buildDescriptor d = Except.ok (pyStr cp, FAIL_URL_HEADER ++ pyStr nv ++ "/") := by
  rw [buildDescriptor, init_ok d c u nv h1 h2 h3]
  simp [cps_ok d c u nv cp hcp, fetch_fail_url]

/-- Descriptor construction succeeds exactly on resolvable change
objects; the sign of the number plays no role. -/
theorem buildDescriptor_ok_iff (d : J) :
    (∃ v, buildDescriptor d = Except.ok v) ↔ resolvableChange d := by
  constructor
  · rintro ⟨v, hv⟩
    cases h1 : jGet d "created" with
    | none => simp [buildDescriptor, CherryPickInfo.init, fetchField, h1] at hv
    | some c =>
    cases h2 : jGet d "updated" with
    | none => simp [buildDescriptor, CherryPickInfo.init, fetchField, h1, h2] at hv
    | some u =>
    cases h3 : jGet d "_number" with
    | none => simp [buildDescriptor, CherryPickInfo.init, fetchField, h1, h2, h3] at hv
    | some nv =>
    cases hcp : resolveCherryPick d with
    | none =>
      obtain ⟨s, hs⟩ := cps_err d c u nv hcp
      rw [buildDescriptor, init_ok d c u nv h1 h2 h3] at hv
      simp [hs] at hv
    | some cp =>
      exact ⟨by simp [h1], by simp [h2], by simp [h3], by simp [hcp]⟩
  · rintro ⟨hc, hu, hn, hcp⟩
    obtain ⟨c, h1⟩ := Option.isSome_iff_exists.mp hc
    obtain ⟨u, h2⟩ := Option.isSome_iff_exists.mp hu
    obtain ⟨nv, h3⟩ := Option.isSome_iff_exists.mp hn
    obtain ⟨cp, h4⟩ := Option.isSome_iff_exists.mp hcp
    exact ⟨_, buildDescriptor_ok d c u nv cp h1 h2 h3 h4⟩

/-- An unresolvable change object fails descriptor construction. -/
theorem buildDescriptor_err (d : J) (h : ¬ resolvableChange d) :
    ∃ e, buildDescriptor d = Except.error e := by
  cases hb : buildDescriptor d with
  | ok v => exact absurd ((buildDescriptor_ok_iff d).mp ⟨v, hb⟩) h
  | error e => exact ⟨e, rfl⟩

/-- One failing element fails the whole decoded batch. -/
theorem get_author_err (l : List J) (d : J) (hd : d ∈ l)
    (hb : ∃ e, buildDescriptor d = Except.error e) :
    ∃ e, get_author_cherry_picks l = Except.error e := by
  induction l with
  | nil => cases hd
  | cons x rest ih =>
    rcases List.mem_cons.mp hd with heq | hmem
    · subst heq
      obtain ⟨e, he⟩ := hb
      exact ⟨e, by simp [get_author_cherry_picks, he]⟩
    · cases hx : buildDescriptor x with
      | error e => exact ⟨e, by simp [get_author_cherry_picks, hx]⟩
      | ok desc =>
        obtain ⟨e, he⟩ := ih hmem
        exact ⟨e, by simp [get_author_cherry_picks, hx, he]⟩

/-- One failing author query fails the aggregation. -/
theorem gather_err (query : String → Except String (List Patch)) (authors : List String)
    (a : String) (ha : a ∈ authors) (hq : ∃ e, query a = Except.error e) :
    ∃ e, gatherAuthors query authors = Except.error e := by
  induction authors with
  | nil => cases ha
  | cons x rest ih =>
    rcases List.mem_cons.mp ha with heq | hmem
    · subst heq
      obtain ⟨e, he⟩ := hq
      exact ⟨e, by simp [gatherAuthors, he]⟩
    · cases hx : query x with
      | error e => exact ⟨e, by simp [gatherAuthors, hx]⟩
      | ok r =>
        obtain ⟨e, he⟩ := ih hmem
        exact ⟨e, by simp [gatherAuthors, hx, he]⟩

/-- When every query returns a list, the aggregation is the
concatenation in roster order, empty results skipped. -/
theorem gatherAuthors_ok (results : String → List Patch) (authors : List String) :
    gatherAuthors (fun a => Except.ok (results a)) authors =
      Except.ok (authors.map results).flatten := by
  induction authors with
  | nil => rfl
  | cons a rest ih =>
    simp only [gatherAuthors, ih]
    cases h : results a with
    | nil => simp [h]
    | cons p ps => simp [h]

end GerritMerger

namespace GerritMerger

/-! ## Claims -/

/-- Claim C1: for every patch list and every per-patch apply outcome, the
sequential applier attempts each patch in list order, never halts on a
failure, and returns the partition whose first component is exactly the
subsequence of patches whose apply command succeeded and whose second
component is exactly the subsequence whose apply command failed, each in
input encounter order. -/
theorem c1_sequential_partition (f : String → Bool) (w : World) (patch_list : List Patch) :
    (try_regular_list (envOf f) w patch_list).1 =
      Except.ok (patch_list.filter (fun p => f p.1), patch_list.filter (fun p => !(f p.1)))
    ∧ ∀ p ∈ patch_list, p.1 ∈ (try_regular_list (envOf f) w patch_list).2.trace := by
  constructor
  · rw [try_regular_list, finallyChdir_fst (envOf f) w.cwd _ rfl, try_regular_list_body_envOf]
    exact apply_loop_envOf_fst f patch_list _
  · intro p hp
    rw [try_regular_list, finallyChdir_trace, try_regular_list_body_envOf]
    exact apply_loop_envOf_attempted f patch_list _ p hp

/-- Witness for C1: the spec example, a list of three patches whose
second apply fails, yields applied P1 and P3, conflicting P2, and the
failing command was attempted. -/
theorem c1_witness :
    (try_regular_list (envOf (fun c => c != "applyQ2")) ⟨"/home/user", []⟩
        [("applyQ1", "url1"), ("applyQ2", "url2"), ("applyQ3", "url3")]).1 =
      Except.ok ([("applyQ1", "url1"), ("applyQ3", "url3")], [("applyQ2", "url2")])
    ∧ "applyQ2" ∈ (try_regular_list (envOf (fun c => c != "applyQ2")) ⟨"/home/user", []⟩
        [("applyQ1", "url1"), ("applyQ2", "url2"), ("applyQ3", "url3")]).2.trace := by
  constructor
  · have h := (c1_sequential_partition (fun c => c != "applyQ2") ⟨"/home/user", []⟩
      [("applyQ1", "url1"), ("applyQ2", "url2"), ("applyQ3", "url3")]).1
    rw [h]
    rfl
  · exact (c1_sequential_partition (fun c => c != "applyQ2") ⟨"/home/user", []⟩
      [("applyQ1", "url1"), ("applyQ2", "url2"), ("applyQ3", "url3")]).2
      ("applyQ2", "url2") (by simp)

/-- Claim C2: on every run of the sequential applier and of the
standalone diagnostic utility, whenever changing back into the recorded
directory is possible, the working directory after the call equals the
directory recorded before the call on every exit path, including runs in
which a command invocation raises mid-run. -/
theorem c2_cwd_restored (env : Env) (w : World) (patch_list : List Patch)
    (h : env.chdirOk w.cwd = true) :
    (try_regular_list env w patch_list).2.cwd = w.cwd
    ∧ (Commit.main env w).2.cwd = w.cwd :=
  ⟨finallyChdir_cwd env w.cwd _ h, finallyChdir_cwd env w.cwd _ h⟩

/-- Witness for C2: under an environment whose every command invocation
raises, both runs still end in the original directory. -/
theorem c2_witness :
    (try_regular_list ⟨fun _ _ => Except.error "spawn failure", fun _ => true⟩
        ⟨"/origdir", []⟩ [("ap1", "u1")]).2.cwd = "/origdir"
    ∧ (Commit.main ⟨fun _ _ => Except.error "spawn failure", fun _ => true⟩
        ⟨"/origdir", []⟩).2.cwd = "/origdir" :=
  c2_cwd_restored ⟨fun _ _ => Except.error "spawn failure", fun _ => true⟩
    ⟨"/origdir", []⟩ [("ap1", "u1")] rfl

/-- Counterexample to C3 as stated: a change object whose `_number` is
the negative value -1, with all fields present, is accepted: descriptor
construction succeeds instead of failing on the negative number. -/
theorem c3_counterexample :
    jGet negChange "_number" = some (J.num (-1)) ∧ (-1 : Int) < 0 ∧
    buildDescriptor negChange =
      Except.ok ("git fetch X && git cherry-pick FETCH_HEAD",
                 "https://android-review.googlesource.com/#/c/-1/") :=
  ⟨rfl, by decide, rfl⟩

/-- Claim C3 amended: constructing a descriptor from a change JSON object
fails with a field-missing error whenever any required field cannot be
resolved, and succeeds whenever all of them are resolvable; the sign of
the resolved number is never checked. -/
theorem c3_construction_iff (d : J) :
    (∃ v, buildDescriptor d = Except.ok v) ↔ resolvableChange d :=
  buildDescriptor_ok_iff d

/-- Witness for C3: a fully resolvable change object is accepted. -/
theorem c3_witness : ∃ v, buildDescriptor goodChangeA = Except.ok v :=
  (c3_construction_iff goodChangeA).mpr (by decide)

/-- Claim C4: a change object with an unresolvable field fails the whole
decoded batch of its author, so no descriptor from that batch, earlier
well-formed elements included, is produced; and a failed author fetch
aborts the aggregated patch list as a whole. -/
theorem c4_all_or_nothing (l : List J) (d : J) (hd : d ∈ l)
    (hbad : ¬ resolvableChange d) :
    (∃ e, get_author_cherry_picks l = Except.error e)
    ∧ ∀ (query : String → Except String (List Patch)) (authors : List String)
        (s : Bool) (a : String), a ∈ authors → (∃ e2, query a = Except.error e2) →
        ∃ e3, form_patch_list query authors s = Except.error e3 := by
  constructor
  · exact get_author_err l d hd (buildDescriptor_err d hbad)
  · intro query authors s a ha hq
    obtain ⟨e, he⟩ := gather_err query authors a ha hq
    exact ⟨e, by simp [form_patch_list, he]⟩

/-- Witness for C4: a batch with one well-formed and one malformed
element fails, and an aggregation over a failing author fails. -/
theorem c4_witness :
    (∃ e, get_author_cherry_picks [goodChangeA, badChange] = Except.error e)
    ∧ (∃ e3, form_patch_list
        (fun a => if a = "bob" then Except.error "boom" else Except.ok [])
        ["alice", "bob"] true = Except.error e3) := by
  have h := c4_all_or_nothing [goodChangeA, badChange] badChange (by simp) (by decide)
  exact ⟨h.1, h.2 (fun a => if a = "bob" then Except.error "boom" else Except.ok [])
    ["alice", "bob"] true "bob" (by simp) ⟨"boom", by simp⟩⟩

/-- Counterexample to C5 as stated: with the sort argument false, the
assembled list is still sorted by the URL key instead of being returned
in concatenation order; the URL of number 10 sorts before the URL of
number 9, so the output order differs from roster order. -/
theorem c5_counterexample :
    form_patch_list
        (fun a => if a = "alice" then Except.ok [patch9] else Except.ok [patch10])
        ["alice", "bob"] false = Except.ok [patch10, patch9]
    ∧ (Except.ok [patch10, patch9] : Except String (List Patch)) ≠ Except.ok [patch9, patch10] := by
  constructor
  · rfl
  · intro hEq
    have h2 := Except.ok.inj hEq
    simp [patch9, patch10] at h2

/-- Claim C5 amended: the assembler skips authors with zero results
without failing the run and concatenates the non-empty results in roster
order and per-author order, but the combined list is always stable-sorted
by the fail-URL key, whatever the value of the sort argument. -/
theorem c5_always_sorted (results : String → List Patch) (authors : List String) (sort : Bool) :
    form_patch_list (fun a => Except.ok (results a)) authors sort =
      Except.ok (pySortByUrl (authors.map results).flatten) := by
  simp [form_patch_list, gatherAuthors_ok]

/-- Claim C6: for every well-formed change object, parsing yields the
exact apply command stored at the cherry-pick path and a review URL equal
to the base followed by the c-fragment, the number and a trailing slash;
in particular number 171665 yields the expected URL. -/
theorem c6_exact_parse :
    (∀ (d : J) (cmd : String) (n : Int),
      resolveCherryPick d = some (J.str cmd) →
      jGet d "_number" = some (J.num n) →
      (jGet d "created").isSome = true →
      (jGet d "updated").isSome = true →
      buildDescriptor d = Except.ok
        (cmd, "https://android-review.googlesource.com/" ++ "#/c/" ++ toString n ++ "/"))
    ∧ buildDescriptor change171665 = Except.ok
        ("git fetch https://android.googlesource.com/platform/art refs/changes/65/171665/3 && git cherry-pick FETCH_HEAD",
         "https://android-review.googlesource.com/#/c/171665/") := by
  constructor
  · intro d cmd n hcp hn hc hu
    obtain ⟨c, h1⟩ := Option.isSome_iff_exists.mp hc
    obtain ⟨u, h2⟩ := Option.isSome_iff_exists.mp hu
    rw [buildDescriptor_ok d c u (J.num n) (J.str cmd) h1 h2 hn hcp]
    rfl
  · rfl

/-- Witness for C6: the well-formed change with number 7 parses to its
stored command and the URL carrying 7. -/
theorem c6_witness :
    buildDescriptor goodChangeB = Except.ok
      ("applyB", "https://android-review.googlesource.com/" ++ "#/c/" ++ toString (7 : Int) ++ "/") :=
  c6_exact_parse.1 goodChangeB "applyB" 7 rfl rfl rfl rfl

/-- Claim C7: the decoder strips the magic token exactly when the body
starts with it, an error status only adds log lines and never prevents
the decode attempt, and the decoded value depends only on the body text,
never on the status. -/
theorem c7_lenient_decode (α : Type) (loads : String → Option α) (r r1 r2 : HttpResponse) :
    (pyStartsWith r.text GERRIT_MAGIC = true →
      decode_response loads r = (raiseForStatusLog r, loads (pyDrop r.text (pyLen GERRIT_MAGIC))))
    ∧ (pyStartsWith r.text GERRIT_MAGIC = false →
      decode_response loads r = (raiseForStatusLog r, loads r.text))
    ∧ (r1.text = r2.text → (decode_response loads r1).2 = (decode_response loads r2).2)
    ∧ (400 ≤ r.status ∧ r.status < 600 → (decode_response loads r).1 ≠ []) := by
  refine ⟨?_, ?_, ?_, ?_⟩
  · intro h
    simp [decode_response, h]
  · intro h
    simp [decode_response, h]
  · intro h
    simp only [decode_response]
    rw [h]
  · intro h
    simp [decode_response, raiseForStatusLog, h]

/-- Witness for C7: a 404 response with a magic-prefixed body decodes the
stripped body and logs the error, and its decoded value equals that of a
200 response with the same body. -/
theorem c7_witness :
    decode_response (fun s => some s) ⟨404, "https://example/q", GERRIT_MAGIC ++ "[]"⟩ =
      (["ERROR on response to https://example/q",
        "server returns: " ++ GERRIT_MAGIC ++ "[]"], some "[]")
    ∧ (decode_response (fun s => some s) ⟨404, "https://example/q", GERRIT_MAGIC ++ "[]"⟩).2 =
      (decode_response (fun s => some s) ⟨200, "https://other/q", GERRIT_MAGIC ++ "[]"⟩).2 := by
  constructor
  · have h := (c7_lenient_decode String (fun s => some s)
      ⟨404, "https://example/q", GERRIT_MAGIC ++ "[]"⟩
      ⟨404, "https://example/q", GERRIT_MAGIC ++ "[]"⟩
      ⟨200, "https://other/q", GERRIT_MAGIC ++ "[]"⟩).1 (by decide)
    rw [h]
    rfl
  · exact (c7_lenient_decode String (fun s => some s)
      ⟨404, "https://example/q", GERRIT_MAGIC ++ "[]"⟩
      ⟨404, "https://example/q", GERRIT_MAGIC ++ "[]"⟩
      ⟨200, "https://other/q", GERRIT_MAGIC ++ "[]"⟩).2.2.1 rfl

/-- Claim C8: when the apply command exits non-zero, the fixed abort
command is invoked before the attempt returns the Conflict
classification, the attempt returns a classification rather than
raising, and on a zero status the abort command is not invoked. -/
theorem c8_abort_compensation (env : Env) (w : World) (command : String) (s s2 : Nat)
    (h1 : env.status w.trace.length command = Except.ok s)
    (h2 : env.status (w.trace.length + 1) GIT_ABORT_CHERRY_PICK = Except.ok s2) :
    (s ≠ 0 → try_cherry_pick env w command =
        (Except.ok false, { w with trace := w.trace ++ [command, GIT_ABORT_CHERRY_PICK] }))
    ∧ (s = 0 → try_cherry_pick env w command =
        (Except.ok true, { w with trace := w.trace ++ [command] })) := by
  have heq := try_cherry_pick_status_ok env w command s s2 h1 h2
  constructor
  · intro hs
    rw [heq, if_neg (by simpa using hs)]
  · intro hs
    rw [heq, if_pos (by simpa using hs)]

/-- Witness for C8: a failed apply is compensated by the abort command
and classified a conflict. -/
theorem c8_witness :
    try_cherry_pick ⟨fun n _ => Except.ok (if n = 0 then 1 else 0), fun _ => true⟩
        ⟨"/wd", []⟩ "applyX" =
      (Except.ok false, ⟨"/wd", ["applyX", GIT_ABORT_CHERRY_PICK]⟩) := by
  have h := (c8_abort_compensation ⟨fun n _ => Except.ok (if n = 0 then 1 else 0), fun _ => true⟩
    ⟨"/wd", []⟩ "applyX" 1 0 rfl rfl).1 (by decide)
  simpa using h

/-- Counterexample to C9 as stated: when every command invocation fails
with status 127, the shell status of a command that cannot be run, the
run is not fatal: it still returns a complete partition report instead of
aborting with an error. -/
theorem c9_counterexample :
    (try_regular_list ⟨fun _ _ => Except.ok 127, fun _ => true⟩ ⟨"/orig", []⟩
        [("applyA", "urlA")]).1 =
      Except.ok ([], [("applyA", "urlA")]) := by
  rfl

/-- Claim C9 amended: a failure to restore the working directory is fatal
and surfaces as an error to the caller; but an inability to run the VCS
CLI is not fatal: when every invocation returns an exit status, the
checkout and reset outcomes are ignored, every apply failure is recorded
as a conflict, and the run returns a report classifying every patch. -/
theorem c9_amended_fatality (env : Env) (w : World) (patch_list : List Patch) :
    (env.chdirOk w.cwd = false →
      ∃ e, (try_regular_list env w patch_list).1 = Except.error e)
    ∧ ((∀ n c, ∃ s, env.status n c = Except.ok s) → env.chdirOk PATH = true →
        env.chdirOk w.cwd = true →
        ∃ reg unm, (try_regular_list env w patch_list).1 = Except.ok (reg, unm)
          ∧ reg.length + unm.length = patch_list.length) := by
  constructor
  · intro h
    exact finallyChdir_err env w.cwd _ h
  · intro hok hpath hback
    obtain ⟨s1, hs1⟩ := hok w.trace.length GIT_CHECKOUT_AUTOMERGE_BRANCH
    obtain ⟨s2, hs2⟩ := hok (w.trace.length + 1) GIT_FULL_RESET_AOSP
    obtain ⟨reg, unm, hres, hlen⟩ := apply_loop_total env hok patch_list
      { cwd := PATH, trace := w.trace ++ [GIT_CHECKOUT_AUTOMERGE_BRANCH, GIT_FULL_RESET_AOSP] }
    refine ⟨reg, unm, ?_, hlen⟩
    rw [try_regular_list, finallyChdir_fst env w.cwd _ hback]
    have hbody : try_regular_list_body env w patch_list =
        apply_loop env
          { cwd := PATH, trace := w.trace ++ [GIT_CHECKOUT_AUTOMERGE_BRANCH, GIT_FULL_RESET_AOSP] }
          patch_list := by
      simp [try_regular_list_body, osChdir, call_bash_muted, callBash, hpath, hs1, hs2]
    rw [hbody, hres]

/-- Witness for C9: a run whose restoring chdir fails surfaces an error,
and a run whose commands all return status 127 classifies its one
patch. -/
theorem c9_witness :
    (∃ e, (try_regular_list ⟨fun _ _ => Except.ok 0, fun _ => false⟩ ⟨"/o", []⟩ []).1 =
      Except.error e)
    ∧ (∃ reg unm, (try_regular_list ⟨fun _ _ => Except.ok 127, fun _ => true⟩ ⟨"/o", []⟩
        [("ap", "u")]).1 = Except.ok (reg, unm) ∧ reg.length + unm.length = 1) := by
  constructor
  · exact (c9_amended_fatality ⟨fun _ _ => Except.ok 0, fun _ => false⟩ ⟨"/o", []⟩ []).1 rfl
  · exact (c9_amended_fatality ⟨fun _ _ => Except.ok 127, fun _ => true⟩ ⟨"/o", []⟩
      [("ap", "u")]).2 (fun n c => ⟨127, rfl⟩) rfl rfl

/-- Claim C10: both attempt functions return true exactly when the apply
command exits with status zero, and the returned classification is
independent of the exit status of the abort command: even when the abort
command itself fails, the attempt returns false without raising. -/
theorem c10_classification_independent_of_abort (env : Env) (w : World) (command : String)
    (s s2 : Nat)
    (h1 : env.status w.trace.length command = Except.ok s)
    (h2 : env.status (w.trace.length + 1) GIT_ABORT_CHERRY_PICK = Except.ok s2) :
    (try_cherry_pick env w command).1 = Except.ok (s == 0)
    ∧ (Commit.try_cherry_pick env w command).1 = Except.ok (s == 0) := by
  have hab : env.status (w.trace.length + 1) Commit.ABORT_COMMAND = Except.ok s2 := h2
  have heq := try_cherry_pick_status_ok env w command s s2 h1 h2
  have heqc := commit_try_cherry_pick_status_ok env w command s s2 h1 hab
  constructor
  · rw [heq]
    by_cases h : s == 0 <;> simp [h]
  · rw [heqc]
    by_cases h : s == 0 <;> simp [h]

/-- Witness for C10: apply status 5 with abort status 3, a failing abort,
still yields false from both attempt functions. -/
theorem c10_witness :
    (try_cherry_pick ⟨fun n _ => Except.ok (if n = 0 then 5 else 3), fun _ => true⟩
        ⟨"/wd2", []⟩ "applyZ").1 = Except.ok false
    ∧ (Commit.try_cherry_pick ⟨fun n _ => Except.ok (if n = 0 then 5 else 3), fun _ => true⟩
        ⟨"/wd2", []⟩ "applyZ").1 = Except.ok false := by
  have h := c10_classification_independent_of_abort
    ⟨fun n _ => Except.ok (if n = 0 then 5 else 3), fun _ => true⟩ ⟨"/wd2", []⟩ "applyZ" 5 3 rfl rfl
  simpa using h

end GerritMerger
